import Mathlib

/-!
Verification of the packaging manifest `runtimes/mlflow/setup.py`.

The file under verification resolves a version string from
`<root>/mlserver_mlflow/version.py` by executing that file's content into a
fresh mapping, reads the long description verbatim from `<root>/README.md`,
and passes the assembled package metadata to the external build subsystem
(`setuptools.setup`).

Shallow embedding choices:
- the filesystem is an association list from path strings to file contents;
- `os.path.join a b` is modelled as `a ++ "/" ++ b` (the usage here never
  passes absolute or empty second components);
- Python's `exec` on the version file is modelled by a parser for the
  assignment-script fragment actually relevant here (one `ident = literal`
  assignment per line, string or integer literals), followed by sequential
  insertion of the parsed bindings into an initially empty mapping — this
  mirrors `exec(fp.read(), version_module)` on well-formed version files;
- failure is modelled with `Except PyError`: `fileNotFoundError` for a
  missing file, `syntaxError` for content the assignment-script fragment
  does not cover, `keyError` for a missing mapping key.
-/

/-- A Python runtime value as far as this manifest can observe one:
the version file binds identifiers to string or integer literals. -/
inductive PyValue where
  | str (s : String)
  | int (n : Nat)
deriving Repr, DecidableEq

/-- The error kinds `setup.py` can raise: a missing file on `open`,
a `KeyError` on the mapping lookup, and a syntax/evaluation error from
`exec` on malformed content. -/
inductive PyError where
  | fileNotFoundError
  | keyError (k : String)
  | syntaxError
deriving Repr, DecidableEq

deriving instance DecidableEq for Except

/-- The filesystem, as the paths that exist paired with their text contents. -/
abbrev FS := List (String × String)

/-- Reading a file: the content stored at the first matching path, if any. -/
def FS.read (fs : FS) (path : String) : Option String :=
  match fs with
  | [] => none
  | (p, c) :: rest => if p = path then some c else FS.read rest path

/-- Model of `os.path.join` for the relative, nonempty components used here. -/
def joinPath (a b : String) : String := a ++ "/" ++ b

/-- The fixed package name (`PKG_NAME = "mlserver-mlflow"`). -/
def PKG_NAME : String := "mlserver-mlflow"

/-- Character-level model of `str.replace("-", "_")`. -/
def replaceDash : List Char → List Char
  | [] => []
  | c :: cs => (if c = '-' then '_' else c) :: replaceDash cs

/-- Model of `PKG_NAME.replace("-", "_")`. -/
def pkgDirOf (name : String) : String := String.mk (replaceDash name.data)

/-- Model of `PKG_PATH = os.path.join(ROOT_PATH, PKG_NAME.replace("-", "_"))`,
with the root directory as a parameter. -/
def pkgPath (root : String) : String := joinPath root (pkgDirOf PKG_NAME)

/-- The path of the version file, `os.path.join(PKG_PATH, "version.py")`. -/
def versionPathOf (root : String) : String := joinPath (pkgPath root) "version.py"

/-- The mapping `exec` writes into: a Python dict from identifiers to values.
Insertion conses at the front, lookup takes the first hit, so the most
recent assignment to an identifier wins, as in Python. -/
abbrev Dict := List (String × PyValue)

/-- Writing one binding into the dict. -/
def dictInsert (d : Dict) (k : String) (v : PyValue) : Dict := (k, v) :: d

/-- Dict lookup (`version_module["__version__"]`): first (most recent) hit. -/
def dictLookup (d : Dict) (k : String) : Option PyValue :=
  match d with
  | [] => none
  | (k', v) :: rest => if k' = k then some v else dictLookup rest k

/-- Executing a list of parsed assignments in order, from a given dict. -/
def execList (d : Dict) : List (String × PyValue) → Dict
  | [] => d
  | (k, v) :: bs => execList (dictInsert d k v) bs

/-- Characters allowed in a Python identifier body. -/
def isIdentChar (c : Char) : Bool := c.isAlpha || c.isDigit || c = '_'

/-- Dropping leading whitespace from a line. -/
def dropSpaces : List Char → List Char
  | [] => []
  | c :: cs => if c.isWhitespace then dropSpaces cs else c :: cs

/-- Splitting an identifier off the front of a line. -/
def takeIdent : List Char → List Char × List Char
  | [] => ([], [])
  | c :: cs =>
    if isIdentChar c then
      let (i, r) := takeIdent cs
      (c :: i, r)
    else ([], c :: cs)

/-- The body of a double-quoted string literal: the characters up to the
closing quote, which only whitespace may follow. -/
def parseStrBody : List Char → List Char → Option String
  | [], _ => none
  | c :: cs, acc =>
    if c = '"' then
      if (dropSpaces cs).isEmpty then some (String.mk acc.reverse) else none
    else parseStrBody cs (c :: acc)

/-- Numeric value of a digit list, most significant first. -/
def digitsVal : List Char → Nat → Nat
  | [], acc => acc
  | c :: cs, acc => digitsVal cs (acc * 10 + (c.toNat - 48))

/-- The right-hand side of an assignment: a string or integer literal. -/
def parseRhs (cs : List Char) : Option PyValue :=
  match dropSpaces cs with
  | [] => none
  | '"' :: rest => (parseStrBody rest []).map PyValue.str
  | rest =>
    let ds := rest.takeWhile Char.isDigit
    let tail := rest.dropWhile Char.isDigit
    if ds.isEmpty then none
    else if (dropSpaces tail).isEmpty then some (PyValue.int (digitsVal ds 0))
    else none

/-- One assignment line `ident = literal`. -/
def parseAssign (line : List Char) : Option (String × PyValue) :=
  let (name, rest) := takeIdent (dropSpaces line)
  if name.isEmpty then none
  else
    match dropSpaces rest with
    | '=' :: rest2 =>
      match parseRhs rest2 with
      | none => none
      | some v => some (String.mk name, v)
    | _ => none

/-- Splitting content into lines at newline characters. -/
def splitLinesAux : List Char → List Char → List (List Char)
  | [], acc => [acc.reverse]
  | c :: cs, acc =>
    if c = '\n' then acc.reverse :: splitLinesAux cs []
    else splitLinesAux cs (c :: acc)

/-- Each non-blank line of the content, parsed as one assignment;
`none` when some line is not a recognised assignment. -/
def parseLines : List (List Char) → Option (List (String × PyValue))
  | [] => some []
  | l :: ls =>
    if (dropSpaces l).isEmpty then parseLines ls
    else
      match parseAssign l with
      | none => none
      | some b =>
        match parseLines ls with
        | none => none
        | some bs => some (b :: bs)

/-- Model of `exec(contents, version_module)` on the assignment-script
fragment: the sequence of bindings the content assigns, or `none` when the
content is not a well-formed assignment script. -/
def pyExec (contents : String) : Option (List (String × PyValue)) :=
  parseLines (splitLinesAux contents.data [])

/-- Shallow embedding of `_load_version` (setup.py lines 11-19):

    def _load_version() -> str:
        version = ""
        version_path = os.path.join(PKG_PATH, "version.py")
        with open(version_path) as fp:
            version_module: Dict[str, str] = {}
            exec(fp.read(), version_module)
            version = version_module["__version__"]
        return version

The initial binding `version = ""` is carried (and shadowed on the normal
path) exactly as in the source; the dict is created empty per call. The
declared `-> str` return type is not enforced by Python, so the result is a
`PyValue`. -/
def load_version (fs : FS) (root : String) : Except PyError PyValue :=
  let version : PyValue := PyValue.str ""
  let version_path := versionPathOf root
  match FS.read fs version_path with
  | none => Except.error PyError.fileNotFoundError
  | some contents =>
    match pyExec contents with
    | none => Except.error PyError.syntaxError
    | some bindings =>
      let version_module : Dict := []
      let version_module := execList version_module bindings
      match dictLookup version_module "__version__" with
      | none => Except.error (PyError.keyError "__version__")
      | some v =>
        let version := v
        Except.ok version

/-- Shallow embedding of `_load_description` (setup.py lines 22-25):

    def _load_description() -> str:
        readme_path = os.path.join(ROOT_PATH, "README.md")
        with open(readme_path) as fp:
            return fp.read()
-/
def load_description (fs : FS) (root : String) : Except PyError String :=
  let readme_path := joinPath root "README.md"
  match FS.read fs readme_path with
  | none => Except.error PyError.fileNotFoundError
  | some contents => Except.ok contents

/-- The record of keyword fields passed to `setup(...)`. -/
structure PackageMetadata where
  name : String
  version : PyValue
  url : String
  author : String
  author_email : String
  description : String
  packages : List String
  install_requires : List String
  long_description : String
  long_description_content_type : String
  license : String
deriving Repr, DecidableEq

/-- Helper for `find_packages`: strips a leading path component. -/
def stripLead : List Char → List Char → Option (List Char)
  | [], cs => some cs
  | _ :: _, [] => none
  | p :: ps, c :: cs => if p = c then stripLead ps cs else none

/-- Modelled from the spec: `setuptools.find_packages` is not part of this
repository's source; the spec describes it as "a discovered set of importable
sub-packages under the root (recursive discovery of directories containing
package markers)". We model the marker-bearing directories as those `p` for
which the filesystem holds `<root>/p/__init__.py` with `p` a single nonempty
component. -/
def packageNameAt (root : String) (path : String) : Option String :=
  match stripLead (root ++ "/").data path.data with
  | none => none
  | some rest =>
    match stripLead ("/__init__.py".data.reverse) rest.reverse with
    | none => none
    | some pRev =>
      let p := pRev.reverse
      if p.isEmpty ∨ p.contains '/' then none else some (String.mk p)

/-- Modelled from the spec: the package directories discovered under the
root (see `packageNameAt`). -/
def find_packages (fs : FS) (root : String) : List String :=
  fs.filterMap (fun e => packageNameAt root e.1)

/-- Shallow embedding of the module-level `setup(...)` call (setup.py lines
28-40). Python evaluates the keyword arguments in order, so `_load_version()`
runs first and `_load_description()` second; an exception from either
propagates and the registration call `setup` itself never executes, which the
embedding renders as `Except.error` with no `PackageMetadata` produced. -/
def runSetupScript (fs : FS) (root : String) : Except PyError PackageMetadata :=
  match load_version fs root with
  | Except.error e => Except.error e
  | Except.ok version =>
    match load_description fs root with
    | Except.error e => Except.error e
    | Except.ok long_description =>
      Except.ok
        { name := PKG_NAME
          version := version
          url := "https://github.com/SeldonIO/MLServer.git"
          author := "Seldon Technologies Ltd."
          author_email := "hello@seldon.io"
          description := "MLflow runtime for MLServer"
          packages := find_packages fs root
          install_requires := ["mlserver", "mlflow"]
          long_description := long_description
          long_description_content_type := "text/markdown"
          license := "Apache 2.0" }

/-- The concrete root of claim C1: a version file binding `__version__` to
`"1.2.3"` and a README containing `"Hello"`. -/
def fsDemo : FS :=
  [ ("/pkg/mlserver_mlflow/version.py", "__version__ = \"1.2.3\""),
    ("/pkg/README.md", "Hello") ]

example : pkgDirOf PKG_NAME = "mlserver_mlflow" := by decide

example : versionPathOf "/pkg" = "/pkg/mlserver_mlflow/version.py" := by decide

example : pyExec "__version__ = \"1.2.3\"" = some [("__version__", PyValue.str "1.2.3")] := by
  decide

example : load_version fsDemo "/pkg" = Except.ok (PyValue.str "1.2.3") := by decide

/-! The claims. -/

/-- C1: for the concrete root containing `mlserver_mlflow/version.py` with
`__version__ = "1.2.3"` and `README.md` containing `"Hello"`, the assembled
package declaration passed to the build subsystem has version `"1.2.3"`,
long_description `"Hello"`, dependency list `["mlserver", "mlflow"]`, and
name `"mlserver-mlflow"` (together with the remaining fixed fields from the
source). -/
theorem setup_demo_metadata :
    runSetupScript fsDemo "/pkg" = Except.ok
      { name := "mlserver-mlflow"
        version := PyValue.str "1.2.3"
        url := "https://github.com/SeldonIO/MLServer.git"
        author := "Seldon Technologies Ltd."
        author_email := "hello@seldon.io"
        description := "MLflow runtime for MLServer"
        packages := []
        install_requires := ["mlserver", "mlflow"]
        long_description := "Hello"
        long_description_content_type := "text/markdown"
        license := "Apache 2.0" } := by decide

/-- C2: for every root whose version file is present, is a well-formed
assignment script, and whose execution leaves `__version__` bound to the
string `x`, `_load_version` returns exactly that string, unchanged. -/
theorem load_version_returns_bound_string (fs : FS) (root contents : String)
    (bs : List (String × PyValue)) (x : String)
    (h1 : FS.read fs (versionPathOf root) = some contents)
    (h2 : pyExec contents = some bs)
    (h3 : dictLookup (execList [] bs) "__version__" = some (PyValue.str x)) :
    load_version fs root = Except.ok (PyValue.str x) := by
  simp only [load_version, h1, h2, h3]

/-- Witness for C2 at the concrete root of `fsDemo`. -/
theorem load_version_returns_bound_string_witness :
    FS.read fsDemo (versionPathOf "/pkg") = some "__version__ = \"1.2.3\"" ∧
    pyExec "__version__ = \"1.2.3\"" = some [("__version__", PyValue.str "1.2.3")] ∧
    dictLookup (execList [] [("__version__", PyValue.str "1.2.3")]) "__version__"
      = some (PyValue.str "1.2.3") ∧
    load_version fsDemo "/pkg" = Except.ok (PyValue.str "1.2.3") :=
  ⟨by decide, by decide, by decide,
   load_version_returns_bound_string fsDemo "/pkg" "__version__ = \"1.2.3\""
     [("__version__", PyValue.str "1.2.3")] "1.2.3" (by decide) (by decide) (by decide)⟩

/-- C3: whenever the version file exists and is a valid assignment script
whose execution does not bind `__version__`, `_load_version` fails with the
KeyError-kind error rather than returning a value. -/
theorem load_version_missing_binding (fs : FS) (root contents : String)
    (bs : List (String × PyValue))
    (h1 : FS.read fs (versionPathOf root) = some contents)
    (h2 : pyExec contents = some bs)
    (h3 : dictLookup (execList [] bs) "__version__" = none) :
    load_version fs root = Except.error (PyError.keyError "__version__") := by
  simp only [load_version, h1, h2, h3]

/-- A root whose version file is valid assignment syntax but binds only
`release`, not `__version__`. -/
def fsNoVersionKey : FS :=
  [ ("/pkg/mlserver_mlflow/version.py", "release = \"1.0\"") ]

/-- Witness for C3 at the concrete root of `fsNoVersionKey`. -/
theorem load_version_missing_binding_witness :
    FS.read fsNoVersionKey (versionPathOf "/pkg") = some "release = \"1.0\"" ∧
    pyExec "release = \"1.0\"" = some [("release", PyValue.str "1.0")] ∧
    dictLookup (execList [] [("release", PyValue.str "1.0")]) "__version__" = none ∧
    load_version fsNoVersionKey "/pkg" = Except.error (PyError.keyError "__version__") :=
  ⟨by decide, by decide, by decide,
   load_version_missing_binding fsNoVersionKey "/pkg" "release = \"1.0\""
     [("release", PyValue.str "1.0")] (by decide) (by decide) (by decide)⟩

/-- C4: whenever the version file `<root>/mlserver_mlflow/version.py` is
absent, `_load_version` fails with the FileNotFoundError-kind error. -/
theorem load_version_missing_file (fs : FS) (root : String)
    (h : FS.read fs (versionPathOf root) = none) :
    load_version fs root = Except.error PyError.fileNotFoundError := by
  simp only [load_version, h]

/-- Witness for C4 on the empty filesystem. -/
theorem load_version_missing_file_witness :
    FS.read ([] : FS) (versionPathOf "/pkg") = none ∧
    load_version ([] : FS) "/pkg" = Except.error PyError.fileNotFoundError :=
  ⟨rfl, load_version_missing_file [] "/pkg" rfl⟩

/-- C5: for every root containing a README.md, `_load_description` returns
exactly the stored contents, with no transformation: reading is the identity
on the stored text. -/
theorem load_description_identity (fs : FS) (root contents : String)
    (h : FS.read fs (joinPath root "README.md") = some contents) :
    load_description fs root = Except.ok contents := by
  simp only [load_description, h]

/-- Witness for C5 at the concrete root of `fsDemo` (content without a
trailing newline is returned without one). -/
theorem load_description_identity_witness :
    FS.read fsDemo (joinPath "/pkg" "README.md") = some "Hello" ∧
    load_description fsDemo "/pkg" = Except.ok "Hello" :=
  ⟨by decide, load_description_identity fsDemo "/pkg" "Hello" (by decide)⟩

/-- C6: if version resolution or description loading fails, the whole
declaration run fails with one of those very errors (uncaught propagation),
and no `PackageMetadata` is ever produced for registration. -/
theorem run_setup_fail_fast (fs : FS) (root : String)
    (h : (∃ e, load_version fs root = Except.error e) ∨
         (∃ e, load_description fs root = Except.error e)) :
    ∃ e, runSetupScript fs root = Except.error e ∧
      (load_version fs root = Except.error e ∨
       load_description fs root = Except.error e) := by
  cases hv : load_version fs root with
  | error e =>
    refine ⟨e, ?_, Or.inl rfl⟩
    unfold runSetupScript
    rw [hv]
  | ok v =>
    cases hd : load_description fs root with
    | error e =>
      refine ⟨e, ?_, Or.inr rfl⟩
      unfold runSetupScript
      rw [hv, hd]
    | ok d =>
      rcases h with ⟨e, he⟩ | ⟨e, he⟩
      · rw [hv] at he; exact Except.noConfusion he
      · rw [hd] at he; exact Except.noConfusion he

/-- Witness for C6 on the empty filesystem, where version resolution fails. -/
theorem run_setup_fail_fast_witness :
    ((∃ e, load_version ([] : FS) "/pkg" = Except.error e) ∨
     (∃ e, load_description ([] : FS) "/pkg" = Except.error e)) ∧
    ∃ e, runSetupScript ([] : FS) "/pkg" = Except.error e ∧
      (load_version ([] : FS) "/pkg" = Except.error e ∨
       load_description ([] : FS) "/pkg" = Except.error e) :=
  ⟨Or.inl ⟨PyError.fileNotFoundError, by decide⟩,
   run_setup_fail_fast [] "/pkg" (Or.inl ⟨PyError.fileNotFoundError, by decide⟩)⟩

/-- C7: the declaration assembly is deterministic in the filesystem state:
two runs against equal filesystems produce identical `PackageMetadata`
results (the embedding is a pure function of the filesystem). -/
theorem run_setup_deterministic (fs fs' : FS) (root : String) (h : fs = fs') :
    runSetupScript fs root = runSetupScript fs' root := by rw [h]

/-- Witness for C7: two runs against the unchanged `fsDemo` agree. -/
theorem run_setup_deterministic_witness :
    fsDemo = fsDemo ∧ runSetupScript fsDemo "/pkg" = runSetupScript fsDemo "/pkg" :=
  ⟨rfl, run_setup_deterministic fsDemo fsDemo "/pkg" rfl⟩

/-- C8: `_load_version` touches no state besides the version file it reads:
its result is a function of that file's content alone. Two calls on
arbitrarily different filesystems and roots agree whenever the version files
read agree, so no ambient state is consulted or mutated, and in the
definition the mapping `version_module` is created empty per call
(`execList [] ...`) and does not escape the call's result. -/
theorem load_version_reads_only_version_file (fs fs' : FS) (root root' : String)
    (h : FS.read fs (versionPathOf root) = FS.read fs' (versionPathOf root')) :
    load_version fs root = load_version fs' root' := by
  simp only [load_version]
  rw [h]

/-- A second root, under a different path and with no README, holding the
same version file content as `fsDemo`. -/
def fsVersionOnly : FS :=
  [ ("/other/mlserver_mlflow/version.py", "__version__ = \"1.2.3\"") ]

/-- Witness for C8: the two filesystems differ everywhere except in the
version file content, and `_load_version` cannot tell them apart. -/
theorem load_version_reads_only_version_file_witness :
    FS.read fsDemo (versionPathOf "/pkg") = FS.read fsVersionOnly (versionPathOf "/other") ∧
    load_version fsDemo "/pkg" = load_version fsVersionOnly "/other" :=
  ⟨by decide, load_version_reads_only_version_file fsDemo fsVersionOnly "/pkg" "/other" (by decide)⟩

/-- C9: `_load_version` performs no type validation on the extracted value:
whatever value execution of the file leaves bound to `__version__`, string
or not, is returned as-is, despite the declared `-> str` return type. -/
theorem load_version_no_type_enforcement (fs : FS) (root contents : String)
    (bs : List (String × PyValue)) (v : PyValue)
    (h1 : FS.read fs (versionPathOf root) = some contents)
    (h2 : pyExec contents = some bs)
    (h3 : dictLookup (execList [] bs) "__version__" = some v) :
    load_version fs root = Except.ok v := by
  simp only [load_version, h1, h2, h3]

/-- A root whose version file binds `__version__` to the integer 5. -/
def fsIntVersion : FS :=
  [ ("/pkg/mlserver_mlflow/version.py", "__version__ = 5") ]

/-- Witness for C9: a version file binding `__version__` to the non-string
value 5 makes `_load_version` return that integer unchanged. -/
theorem load_version_no_type_enforcement_witness :
    FS.read fsIntVersion (versionPathOf "/pkg") = some "__version__ = 5" ∧
    pyExec "__version__ = 5" = some [("__version__", PyValue.int 5)] ∧
    dictLookup (execList [] [("__version__", PyValue.int 5)]) "__version__"
      = some (PyValue.int 5) ∧
    load_version fsIntVersion "/pkg" = Except.ok (PyValue.int 5) :=
  ⟨by decide, by decide, by decide,
   load_version_no_type_enforcement fsIntVersion "/pkg" "__version__ = 5"
     [("__version__", PyValue.int 5)] (PyValue.int 5) (by decide) (by decide) (by decide)⟩

/-- C10: on every normal return of `_load_version`, the returned value is
exactly the `__version__` entry of the mapping produced by executing the
file's content; in particular the initial `version = ""` default is never
the source of the returned value. -/
theorem load_version_ok_from_module_entry (fs : FS) (root : String) (v : PyValue)
    (h : load_version fs root = Except.ok v) :
    ∃ contents bs,
      FS.read fs (versionPathOf root) = some contents ∧
      pyExec contents = some bs ∧
      dictLookup (execList [] bs) "__version__" = some v := by
  simp only [load_version] at h
  split at h
  · exact Except.noConfusion h
  · rename_i contents hr
    split at h
    · exact Except.noConfusion h
    · rename_i bs he
      split at h
      · exact Except.noConfusion h
      · rename_i w hd
        cases h
        exact ⟨contents, bs, hr, he, hd⟩

/-- Witness for C10 at the concrete root of `fsDemo`. -/
theorem load_version_ok_from_module_entry_witness :
    load_version fsDemo "/pkg" = Except.ok (PyValue.str "1.2.3") ∧
    ∃ contents bs,
      FS.read fsDemo (versionPathOf "/pkg") = some contents ∧
      pyExec contents = some bs ∧
      dictLookup (execList [] bs) "__version__" = some (PyValue.str "1.2.3") :=
  ⟨by decide, load_version_ok_from_module_entry fsDemo "/pkg" (PyValue.str "1.2.3") (by decide)⟩
